import Mathlib

/-!
Verification development for the knowledge-skill-builder scripts
(analyze_knowledge_repo.py, validate_skill.py, package_skill.py).

The Python code is shallowly embedded: Python floats are modelled as exact
fractions (an integer numerator over a natural denominator, as produced by
the arithmetic of the scripts), Python/YAML values as a small inductive
type with Python value equality, Python exceptions as Except, and the
filesystem as explicit lists of (path, content) pairs.
-/

set_option maxRecDepth 16384

/-- Model of a Python float value produced by the scripts: an exact fraction
with integer numerator and natural denominator.  All arithmetic performed by
the scripts (word count times 1.3, running sums, division by a file count)
is exact on such fractions; the value of the fraction is num / den. -/
structure PyFloat where
  num : Int
  den : Nat
deriving DecidableEq, Repr

/-- The rational value denoted by a modelled float. -/
def PyFloat.toRat (f : PyFloat) : ℚ := (f.num : ℚ) / (f.den : ℚ)

/-- Addition of modelled floats (exact). -/
def PyFloat.add (a b : PyFloat) : PyFloat :=
  ⟨a.num * (b.den : Int) + b.num * (a.den : Int), a.den * b.den⟩

/-- Multiplication of modelled floats (exact). -/
def PyFloat.mul (a b : PyFloat) : PyFloat :=
  ⟨a.num * b.num, a.den * b.den⟩

/-- The float 1.3, as written in analyze_file. -/
def pyOnePointThree : PyFloat := ⟨13, 10⟩

/-- Embedding of a natural number into a modelled float. -/
def PyFloat.ofNat (n : Nat) : PyFloat := ⟨(n : Int), 1⟩

/-- Python truncating conversion int(f) for a modelled float. -/
def PyFloat.toInt (f : PyFloat) : Int := f.num.tdiv (f.den : Int)

/-- Python division of a modelled float by an integer count.  Division by
zero raises ZeroDivisionError, modelled as none. -/
def pyDivByCount (a : PyFloat) (n : Nat) : Option PyFloat :=
  if n = 0 then none else some ⟨a.num, a.den * n⟩

/-- Python true division of two integer counts (a / b in Python 3 yields a
float); division by zero raises ZeroDivisionError, modelled as none. -/
def pyDivNat (a b : Nat) : Option PyFloat :=
  if b = 0 then none else some ⟨(a : Int), b⟩

/-- Characters treated as whitespace by Python str.split, str.strip and by
the regex class backslash-s (ASCII fragment). -/
def isPySpace (c : Char) : Bool :=
  c = ' ' || c = '\t' || c = '\n' || c = '\x0d' || c = '\x0b' || c = '\x0c'

/-- Characters matched by the regex class backslash-w (ASCII fragment). -/
def isPyWordChar (c : Char) : Bool :=
  c.isAlphanum || c = '_'

/-- Lowercasing of a character as done by Python str.lower (ASCII fragment). -/
def pyLowerChar (c : Char) : Char := Char.toLower c

/-- Lowercasing of a string as done by Python str.lower (ASCII fragment). -/
def pyLower (s : String) : String := ⟨s.data.map pyLowerChar⟩

/-- Substring test on character lists: containsSub pat hay is true iff pat
occurs contiguously in hay, the meaning of the Python expression
pat in hay for strings. -/
def containsSub (pat : List Char) : List Char → Bool
  | [] => pat.isEmpty
  | c :: t => pat.isPrefixOf (c :: t) || containsSub pat t

/-- Substring test on strings (Python pat in hay). -/
def pyInStr (hay pat : String) : Bool := containsSub pat.data hay.data

/-- Number of whitespace-delimited words of a text, the length of the list
returned by Python str.split with no arguments.  The boolean argument
records whether the previous character was inside a word. -/
def countWordsAux : List Char → Bool → Nat
  | [], _ => 0
  | c :: cs, inw =>
    if isPySpace c then countWordsAux cs false
    else (if inw then 0 else 1) + countWordsAux cs true

/-- Number of whitespace-delimited words of a text. -/
def countWords (cs : List Char) : Nat := countWordsAux cs false

/-- Decimal digit character for a value below ten. -/
def digitChar : Nat → Char
  | 0 => '0' | 1 => '1' | 2 => '2' | 3 => '3' | 4 => '4'
  | 5 => '5' | 6 => '6' | 7 => '7' | 8 => '8' | _ => '9'

/-- Decimal digits of a natural number (fuelled so that it is structurally
recursive and evaluates inside the kernel). -/
def natCharsF : Nat → Nat → List Char
  | 0, _ => []
  | fuel + 1, n => if n < 10 then [digitChar n] else natCharsF fuel (n / 10) ++ [digitChar (n % 10)]

/-- Decimal rendering of a natural number. -/
def natStr (n : Nat) : String := ⟨natCharsF (n + 1) n⟩

/-- Decimal rendering of an integer. -/
def intStr (n : Int) : String :=
  if n < 0 then "-" ++ natStr n.natAbs else natStr n.natAbs

/-- The leading marker of a YAML frontmatter block. -/
def fmOpenMarker : List Char := '-' :: '-' :: '-' :: '\n' :: []

/-- The closing delimiter of a YAML frontmatter block. -/
def fmCloseMarker : List Char := '\n' :: '-' :: '-' :: '-' :: '\n' :: []

/-- Splits a character list at the first occurrence of the frontmatter
closing delimiter, returning the prefix before it; none when the delimiter
does not occur.  This is the non-greedy search performed by the regex
group in re.match applied by the scripts. -/
def splitAtCloseMarker : List Char → Option (List Char)
  | [] => none
  | c :: cs =>
    if fmCloseMarker.isPrefixOf (c :: cs) then some []
    else (splitAtCloseMarker cs).map (fun p => c :: p)

/-- The frontmatter block of a file, as matched by the regex
caret dash dash dash newline, non-greedy group, newline dash dash dash
newline (with DOTALL): the text between the opening marker and the first
following closing delimiter, or none when the regex does not match. -/
def extractFmBlock (content : List Char) : Option (List Char) :=
  if fmOpenMarker.isPrefixOf content then splitAtCloseMarker (content.drop 4)
  else none

/-- Hashtag extraction: every non-overlapping occurrence of a hash sign
followed by one or more word characters, as found by re.findall with the
pattern hash, captured word-char run (fuelled recursion). -/
def findHashtagsF : Nat → List Char → List (List Char)
  | 0, _ => []
  | _ + 1, [] => []
  | fuel + 1, '#' :: cs =>
    let w := cs.takeWhile isPyWordChar
    if w.isEmpty then findHashtagsF fuel cs
    else w :: findHashtagsF fuel (cs.drop w.length)
  | fuel + 1, _ :: cs => findHashtagsF fuel cs

/-- Hashtag extraction over a whole text. -/
def findHashtags (cs : List Char) : List (List Char) :=
  findHashtagsF (cs.length + 1) cs

/-- Wikilink extraction: every non-overlapping match of two opening
brackets, one or more characters none of which is a closing bracket, and
two closing brackets, with the inner text captured verbatim (fuelled
recursion mirroring the regex scan). -/
def findWikilinksF : Nat → List Char → List (List Char)
  | 0, _ => []
  | _ + 1, [] => []
  | fuel + 1, '[' :: '[' :: cs =>
    let body := cs.takeWhile (fun c => c ≠ ']')
    let rest := cs.drop body.length
    if ¬ body.isEmpty ∧ rest.take 2 = [']', ']'] then
      body :: findWikilinksF fuel (rest.drop 2)
    else findWikilinksF fuel ('[' :: cs)
  | fuel + 1, _ :: cs => findWikilinksF fuel cs

/-- Wikilink extraction over a whole text. -/
def findWikilinks (cs : List Char) : List (List Char) :=
  findWikilinksF (2 * cs.length + 1) cs

/-- Drops trailing newline characters of a whitespace run. -/
def dropTrailingNewlines (w : List Char) : List Char :=
  (w.reverse.dropWhile (fun c => c = '\n')).reverse

/-- Attempts to match the heading regex (one to six hash characters, one or
more whitespace characters, then one or more non-newline characters, up to
an end of line) at the given position.  Returns the captured group and the
remaining characters after the match.  The whitespace run may extend over
newlines (MULTILINE does not restrict the whitespace class), and when only
whitespace follows, the regex engine backtracks so that the last usable
whitespace character becomes the captured group. -/
def headingAt (cs : List Char) : Option (List Char × List Char) :=
  let hashes := cs.takeWhile (fun c => c = '#')
  let m := hashes.length
  if 1 ≤ m ∧ m ≤ 6 then
    let t := cs.drop m
    match t with
    | [] => none
    | c :: _ =>
      if isPySpace c then
        let w := t.takeWhile isPySpace
        let r := (t.drop w.length).takeWhile (fun ch => ch ≠ '\n')
        if ¬ r.isEmpty then some (r, t.drop (w.length + r.length))
        else
          let w2 := dropTrailingNewlines w
          if w2.length ≥ 2 then
            some ([w2.getLastD ' '], t.drop w2.length)
          else none
      else none
  else none

/-- Skips past the next newline character. -/
def skipLine (cs : List Char) : List Char :=
  (cs.dropWhile (fun c => c ≠ '\n')).drop 1

/-- Heading extraction driver: tries the heading regex at each line start,
as re.findall does with the MULTILINE flag (fuelled recursion). -/
def findHeadingsF : Nat → List Char → List (List Char)
  | 0, _ => []
  | _ + 1, [] => []
  | fuel + 1, cs =>
    match headingAt cs with
    | some (h, rest) => h :: findHeadingsF fuel (skipLine rest)
    | none => findHeadingsF fuel (skipLine cs)

/-- Heading extraction over a whole text. -/
def findHeadings (cs : List Char) : List (List Char) :=
  findHeadingsF (cs.length + 1) cs

/-- Model of a Python value as produced by yaml safe_load on the simple
documents handled here (floats and other exotic node kinds are not
modelled; none of the analysed behaviour depends on them). -/
inductive Yaml where
  | null
  | bool (b : Bool)
  | int (n : Int)
  | str (s : String)
  | list (xs : List Yaml)
  | dict (kvs : List (Yaml × Yaml))

/-- Python exceptions raised by the modelled code paths. -/
inductive PyErr where
  | typeError
  | attributeError
  | yamlError
deriving DecidableEq, Repr

mutual

/-- Python value equality on modelled values; a bool compares equal to the
integer it denotes, as in Python. -/
def pyEq : Yaml → Yaml → Bool
  | .null, .null => true
  | .bool a, .bool b => a == b
  | .bool a, .int n => (if a then (1 : Int) else 0) == n
  | .int n, .bool a => n == (if a then (1 : Int) else 0)
  | .int m, .int n => m == n
  | .str a, .str b => a == b
  | .list xs, .list ys => pyEqList xs ys
  | .dict xs, .dict ys => pyEqKVList xs ys
  | _, _ => false

/-- Elementwise Python equality of two lists. -/
def pyEqList : List Yaml → List Yaml → Bool
  | [], [] => true
  | x :: xs, y :: ys => pyEq x y && pyEqList xs ys
  | _, _ => false

/-- Itemwise Python equality of two key-value lists. -/
def pyEqKVList : List (Yaml × Yaml) → List (Yaml × Yaml) → Bool
  | [], [] => true
  | (k1, v1) :: xs, (k2, v2) :: ys => pyEq k1 k2 && pyEq v1 v2 && pyEqKVList xs ys
  | _, _ => false

end

/-- Python truthiness: None, False, zero, the empty string, the empty list
and the empty dict are falsy. -/
def pyFalsy : Yaml → Bool
  | .null => true
  | .bool b => !b
  | .int n => n == 0
  | .str s => s.isEmpty
  | .list xs => xs.isEmpty
  | .dict kvs => kvs.isEmpty

/-- Whether a Python value is hashable (usable as a dict or Counter key). -/
def pyHashable : Yaml → Bool
  | .list _ => false
  | .dict _ => false
  | _ => true

mutual

/-- Python repr of a modelled value.  String escaping is not modelled: the
repr of a string is the string between two single quotes, which agrees
with Python for strings free of quotes, backslashes and control
characters (the only strings for which repr-based reasoning is used). -/
def pyRepr : Yaml → String
  | .null => "None"
  | .bool true => "True"
  | .bool false => "False"
  | .int n => intStr n
  | .str s => "\x27" ++ s ++ "\x27"
  | .list xs => "[" ++ pyReprList xs ++ "]"
  | .dict kvs => "\x7b" ++ pyReprKVList kvs ++ "\x7d"

/-- Comma-separated reprs of the elements of a list. -/
def pyReprList : List Yaml → String
  | [] => ""
  | [x] => pyRepr x
  | x :: xs => pyRepr x ++ ", " ++ pyReprList xs

/-- Comma-separated reprs of the items of a dict. -/
def pyReprKVList : List (Yaml × Yaml) → String
  | [] => ""
  | [(k, v)] => pyRepr k ++ ": " ++ pyRepr v
  | (k, v) :: kvs => pyRepr k ++ ": " ++ pyRepr v ++ ", " ++ pyReprKVList kvs

end

/-- Python str of a modelled value (as interpolated by an f-string). -/
def pyStrOf : Yaml → String
  | .str s => s
  | v => pyRepr v

instance : Repr Yaml := ⟨fun v _ => Std.Format.text (pyRepr v)⟩

/-- Python membership test needle in container for a string needle: key
membership for a dict, element membership for a list, substring test for a
string, and a TypeError for non-container values. -/
def pyIn (needle : String) : Yaml → Except PyErr Bool
  | .str s => .ok (pyInStr s needle)
  | .list xs => .ok (xs.any (fun x => pyEq x (.str needle)))
  | .dict kvs => .ok (kvs.any (fun kv => pyEq kv.1 (.str needle)))
  | _ => .error .typeError

/-- Python subscript container[key] for a string key: a dict lookup
succeeds, while subscripting a string, a list or a scalar with a string
key raises a TypeError. -/
def pyGetItem (v : Yaml) (key : String) : Except PyErr Yaml :=
  match v with
  | .dict kvs =>
    match kvs.find? (fun kv => pyEq kv.1 (.str key)) with
    | some kv => .ok kv.2
    | none => .error .typeError
  | _ => .error .typeError

/-- Python attribute call container.keys(): the keys of a dict, an
AttributeError on any other value. -/
def pyKeys : Yaml → Except PyErr (List Yaml)
  | .dict kvs => .ok (kvs.map (fun kv => kv.1))
  | _ => .error .attributeError

/-- Trims surrounding whitespace from a character list. -/
def trimChars (cs : List Char) : List Char :=
  ((cs.dropWhile isPySpace).reverse.dropWhile isPySpace).reverse

/-- Numeric value of a digit list. -/
def digitsVal (cs : List Char) : Nat :=
  cs.foldl (fun acc c => acc * 10 + (c.toNat - 48)) 0

/-- Scalar parse of a trimmed YAML token: empty or tilde is null, a digit
run is an integer, true and false are booleans, anything else is a plain
string. -/
def yamlScalar (cs : List Char) : Yaml :=
  let t := trimChars cs
  if t.isEmpty then .null
  else if t = ['~'] then .null
  else if t.all (fun c => c.isDigit) then .int (digitsVal t)
  else if t = "true".data then .bool true
  else if t = "false".data then .bool false
  else .str ⟨t⟩

/-- Splits a character list on a separator character (one level, no
nesting awareness; adequate for flat flow lists of scalars). -/
def splitOnChar (sep : Char) : List Char → List (List Char)
  | [] => [[]]
  | c :: cs =>
    let rest := splitOnChar sep cs
    if c = sep then [] :: rest
    else match rest with
      | [] => [[c]]
      | r :: rs => (c :: r) :: rs

/-- Parse of a YAML flow value: a bracketed flow list of scalars, or a
plain scalar. -/
def yamlValue (cs : List Char) : Yaml :=
  let t := trimChars cs
  match t with
  | '[' :: rest =>
    if rest.getLast? = some ']' then
      let inner := rest.dropLast
      if (trimChars inner).isEmpty then .list []
      else .list ((splitOnChar ',' inner).map yamlScalar)
    else yamlScalar t
  | _ => yamlScalar t

/-- Splits a line at its first colon, returning key text and value text. -/
def splitAtColon (cs : List Char) : Option (List Char × List Char) :=
  let key := cs.takeWhile (fun c => c ≠ ':')
  let rest := cs.drop key.length
  match rest with
  | ':' :: v => some (key, v)
  | _ => none

/-- Model of the external yaml safe_load on the simple documents used in
this development: the empty document is None, a single scalar line is that
scalar, a sequence of key colon value lines is a flat mapping (values may
be flow lists of scalars), and an unclosed bracket is a parse error.
Documents outside this fragment are mapped to a parse error; all theorems
apply it only to documents inside the fragment, where it agrees with the
library. -/
def yamlLoadModel (cs : List Char) : Except PyErr Yaml :=
  let lines := (splitOnChar '\n' cs).filter (fun l => ¬ (trimChars l).isEmpty)
  if cs.count '[' ≠ cs.count ']' then .error .yamlError
  else match lines with
  | [] => .ok .null
  | [l] =>
    match splitAtColon l with
    | some (k, v) => .ok (.dict [(.str ⟨trimChars k⟩, yamlValue v)])
    | none => .ok (yamlScalar l)
  | ls =>
    if ls.all (fun l => (splitAtColon l).isSome) then
      .ok (.dict (ls.filterMap (fun l =>
        (splitAtColon l).map (fun kv => (.str ⟨trimChars kv.1⟩, yamlValue kv.2)))))
    else .error .yamlError

/-- Analysis record produced for one markdown file (the file_info dict of
analyze_file).  The estimated token count is a modelled float. -/
structure FileAnalysis where
  path : String
  relative_path : String
  size : Nat
  estimated_tokens : PyFloat
  frontmatter : Yaml
  tags : List Yaml
  wikilinks : List String
  headings : List String
  has_code_blocks : Bool
deriving Repr

/-- Embedding of analyze_file: given the yaml loader, the two path strings
and the decoded text content, produce the per-file analysis.  The
frontmatter is the parsed block when present and parseable (with falsy
parse results replaced by the empty dict, as the or-expression does), the
empty dict otherwise; a YAML parse error is swallowed.  Extracting the
tags can raise a TypeError when the frontmatter is a truthy non-container
or a string containing the text tags, exactly as the Python code can. -/
def analyze_file (yamlLoad : List Char → Except PyErr Yaml)
    (path relative_path : String) (content : String) :
    Except PyErr FileAnalysis := do
  let cs := content.data
  let fm : Yaml :=
    match extractFmBlock cs with
    | none => .dict []
    | some body =>
      match yamlLoad body with
      | .error _ => .dict []
      | .ok v => if pyFalsy v then .dict [] else v
  let hasTags ← pyIn "tags" fm
  let tags0 : List Yaml ←
    if hasTags then do
      let tv ← pyGetItem fm "tags"
      match tv with
      | .list xs => pure xs
      | .str s => pure [.str s]
      | _ => pure []
    else pure []
  let hashtags := (findHashtags cs).map (fun w => Yaml.str ⟨w⟩)
  pure {
    path := path
    relative_path := relative_path
    size := cs.length
    estimated_tokens := (PyFloat.ofNat (countWords cs)).mul pyOnePointThree
    frontmatter := fm
    tags := tags0 ++ hashtags
    wikilinks := (findWikilinks cs).map (fun w => (⟨w⟩ : String))
    headings := (findHeadings cs).map (fun w => (⟨w⟩ : String))
    has_code_blocks := containsSub "```".data cs
  }

/-- Insertion-ordered Counter increment: the entry whose key is Python
equal to the given key is incremented in place, otherwise a new entry is
appended. -/
def incrCounter (k : Yaml) : List (Yaml × Nat) → List (Yaml × Nat)
  | [] => [(k, 1)]
  | (k0, n) :: rest =>
    if pyEq k0 k then (k0, n + 1) :: rest else (k0, n) :: incrCounter k rest

/-- Counter update counter[k] += 1, raising a TypeError on an unhashable
key, as Python does. -/
def counterAdd (c : List (Yaml × Nat)) (k : Yaml) : Except PyErr (List (Yaml × Nat)) :=
  if pyHashable k then .ok (incrCounter k c) else .error .typeError

/-- Appends a referring path to the backlink entry of a link target,
creating the entry when absent (defaultdict of list, insertion ordered). -/
def blAppend : List (String × List String) → String → String → List (String × List String)
  | [], l, p => [(l, [p])]
  | (k, v) :: rest, l, p =>
    if k = l then (k, v ++ [p]) :: rest else (k, v) :: blAppend rest l p

/-- The list held in the backlink map for a target (empty when the key is
absent). -/
def blLookup (bl : List (String × List String)) (t : String) : List String :=
  match bl.find? (fun e => e.1 = t) with
  | some e => e.2
  | none => []

/-- Whether the backlink map has an entry for a target. -/
def blHasKey (bl : List (String × List String)) (t : String) : Bool :=
  bl.any (fun e => e.1 = t)

/-- One discovered markdown file: its filesystem path, its path relative
to the scanned root broken into components, and its decoded text. -/
structure MdFile where
  path : String
  rel_parts : List String
  content : String

/-- The string form of the relative path of a discovered file. -/
def MdFile.relPathStr (f : MdFile) : String := "/".intercalate f.rel_parts

/-- The corpus analysis dict built by analyze_repository. -/
structure Analysis where
  path : String
  files : List FileAnalysis
  total_files : Nat
  total_size : Nat
  frontmatter_fields : List (Yaml × Nat)
  tags : List (Yaml × Nat)
  wikilinks : List String
  backlinks : List (String × List String)
  file_structure : List (String × Nat)
  topics : List Yaml
  estimated_tokens : PyFloat
deriving Repr

/-- The loop body of analyze_repository for one analysed file: append the
file record, add its size and token estimate, count its frontmatter
fields (which raises an AttributeError when the stored frontmatter is a
truthy non-dict), count its tags (which raises a TypeError on an
unhashable tag), extend the flat wikilink list and record one backlink per
wikilink occurrence. -/
def aggregate_file (s : Analysis) (fi : FileAnalysis) : Except PyErr Analysis := do
  let fields ← pyKeys fi.frontmatter
  let ff ← fields.foldlM counterAdd s.frontmatter_fields
  let tg ← fi.tags.foldlM counterAdd s.tags
  pure { s with
    files := s.files ++ [fi]
    total_size := s.total_size + fi.size
    estimated_tokens := s.estimated_tokens.add fi.estimated_tokens
    frontmatter_fields := ff
    tags := tg
    wikilinks := s.wikilinks ++ fi.wikilinks
    backlinks := fi.wikilinks.foldl (fun bl l => blAppend bl l fi.relative_path) s.backlinks }

/-- The scan loop of analyze_repository: analyse each discovered file and
fold it into the running analysis, propagating any exception. -/
def process_files (yamlLoad : List Char → Except PyErr Yaml) :
    Analysis → List MdFile → Except PyErr Analysis
  | s, [] => .ok s
  | s, f :: rest => do
    let fi ← analyze_file yamlLoad f.path f.relPathStr f.content
    let s2 ← aggregate_file s fi
    process_files yamlLoad s2 rest

/-- Insertion-ordered counting of directory labels. -/
def treeAdd (k : String) : List (String × Nat) → List (String × Nat)
  | [] => [(k, 1)]
  | (k0, n) :: rest =>
    if k0 = k then (k0, n + 1) :: rest else (k0, n) :: treeAdd k rest

/-- Embedding of build_directory_tree: count files per relative parent
directory, with files directly under the root grouped under the label
root. -/
def build_directory_tree (files : List MdFile) : List (String × Nat) :=
  files.foldl (fun tree f =>
    if f.rel_parts.length > 1 then treeAdd ("/".intercalate f.rel_parts.dropLast) tree
    else treeAdd "root" tree) []

/-- Stable insertion into a sorted list: the element is placed before the
first element it must strictly come before, hence after all elements that
compare equal (the stability of the Python sorted builtin). -/
def sInsert (lt : α → α → Bool) (x : α) : List α → List α
  | [] => [x]
  | y :: ys => if lt x y then x :: y :: ys else y :: sInsert lt x ys

/-- Stable sort with a strict comes-before test. -/
def sSort (lt : α → α → Bool) (l : List α) : List α :=
  l.foldl (fun acc x => sInsert lt x acc) []

/-- Counter.most_common n: entries sorted by decreasing count, ties kept
in insertion order, truncated to n. -/
def mostCommon (c : List (Yaml × Nat)) (n : Nat) : List (Yaml × Nat) :=
  (sSort (fun a b => b.2 < a.2) c).take n

/-- First-occurrence deduplication with Python equality.  The source
converts the topic list through an unordered set whose iteration order the
language does not specify; the model fixes the first-occurrence order. -/
def pySetDedup : List Yaml → List Yaml
  | [] => []
  | x :: xs => x :: (pySetDedup xs).filter (fun y => ¬ pyEq x y)

/-- Embedding of identify_topics: the first path segment of each non-root
directory label, then the up-to-ten most common tags not already present,
finally deduplicated through a set. -/
def identify_topics (file_structure : List (String × Nat)) (tags : List (Yaml × Nat)) :
    List Yaml :=
  let dirTopics := (file_structure.filter (fun e => e.1 ≠ "root")).map
    (fun e => Yaml.str ⟨e.1.data.takeWhile (fun c => c ≠ '/')⟩)
  let withTags := (mostCommon tags 10).foldl (fun ts e =>
    if ts.any (fun t => pyEq e.1 t) then ts else ts ++ [e.1]) dirTopics
  pySetDedup withTags

/-- Embedding of analyze_repository: scan the given markdown files (the
result of the recursive glob, with contents already decoded), fold each
per-file analysis into the aggregate, then attach the directory tree and
the identified topics.  The total file count is set before the loop. -/
def analyze_repository (yamlLoad : List Char → Except PyErr Yaml)
    (repoPath : String) (mdFiles : List MdFile) : Except PyErr Analysis := do
  let init : Analysis := {
    path := repoPath
    files := []
    total_files := mdFiles.length
    total_size := 0
    frontmatter_fields := []
    tags := []
    wikilinks := []
    backlinks := []
    file_structure := []
    topics := []
    estimated_tokens := ⟨0, 1⟩ }
  let s ← process_files yamlLoad init mdFiles
  let fs := build_directory_tree mdFiles
  pure { s with file_structure := fs, topics := identify_topics fs s.tags }

/-- Comparison of a modelled float with a natural number threshold (value
comparison, meaningful for positive denominators, which all floats built
by the scripts have). -/
def PyFloat.ltNat (f : PyFloat) (n : Nat) : Bool :=
  f.num < (n : Int) * (f.den : Int)

/-- Embedding of estimate_loading_strategy: the three threshold tests in
source order, first match winning. -/
def estimate_loading_strategy (total_tokens : PyFloat) (file_count : Nat) :
    String × String :=
  if total_tokens.ltNat 5000 ∧ file_count < 10 then
    ("always", "Small knowledge base - can load most content")
  else if total_tokens.ltNat 20000 ∧ file_count < 50 then
    ("selective", "Medium knowledge base - use keyword or topic-based triggers")
  else
    ("on-demand", "Large knowledge base - load only when explicitly needed")

/-- Value comparison of two modelled floats (meaningful for the positive
denominators produced by the scripts). -/
def PyFloat.ltF (a b : PyFloat) : Bool :=
  a.num * (b.den : Int) < b.num * (a.den : Int)

/-- Lexicographic comparison of character lists by code point, the Python
string ordering. -/
def strLtChars : List Char → List Char → Bool
  | [], [] => false
  | [], _ :: _ => true
  | _ :: _, [] => false
  | a :: as, b :: bs =>
    if a.toNat < b.toNat then true
    else if b.toNat < a.toNat then false
    else strLtChars as bs

/-- Python string comparison. -/
def strLtBool (a b : String) : Bool := strLtChars a.data b.data

/-- Round half to even of the value of a modelled float (the rounding used
by Python fixed-point float formatting; formatting ties that are not
exactly representable in binary are outside the modelled fragment). -/
def roundHalfEven (f : PyFloat) : Int :=
  let d : Int := (f.den : Int)
  let q := f.num.fdiv d
  let r := f.num - q * d
  if 2 * r < d then q
  else if 2 * r > d then q + 1
  else if q % 2 = 0 then q else q + 1

/-- Python format specification .0f on a modelled float. -/
def fmt0f (f : PyFloat) : String := intStr (roundHalfEven f)

/-- Python format specification .1f on a modelled float. -/
def fmt1f (f : PyFloat) : String :=
  let s := roundHalfEven ⟨f.num * 10, f.den⟩
  let a := s.natAbs
  (if s < 0 then "-" else "") ++ natStr (a / 10) ++ "." ++ natStr (a % 10)

/-- Digit grouping of a reversed digit list in blocks of three (fuelled). -/
def commaRevF : Nat → List Char → List Char
  | 0, _ => []
  | _ + 1, [] => []
  | fuel + 1, ds =>
    let c3 := ds.take 3
    let rest := ds.drop 3
    if rest.isEmpty then c3 else c3 ++ [','] ++ commaRevF fuel rest

/-- Python thousands-separator formatting of a natural number. -/
def commaNat (n : Nat) : String :=
  let ds := natCharsF (n + 1) n
  ⟨(commaRevF (ds.length + 1) ds.reverse).reverse⟩

/-- Python thousands-separator formatting of an integer. -/
def commaInt (n : Int) : String :=
  (if n < 0 then "-" else "") ++ commaNat n.natAbs

/-- The repr of the tag Counter, as produced by str on a Counter: the
class name around the dict repr of the items in most-common order, with
the empty Counter printed as Counter(). -/
def counterRepr (tags : List (Yaml × Nat)) : String :=
  if tags.isEmpty then "Counter()"
  else "Counter(" ++
    pyRepr (.dict ((sSort (fun a b => b.2 < a.2) tags).map (fun e => (e.1, Yaml.int (e.2 : Int))))) ++ ")"

/-- The skill type recommended by generate_report: framework-guidance
exactly when the lowercased str of the tag Counter contains the text
template or the text framework. -/
def recommend_skill_type (tags : List (Yaml × Nat)) : String :=
  if pyInStr (pyLower (counterRepr tags)) "template" ||
     pyInStr (pyLower (counterRepr tags)) "framework" then "framework-guidance"
  else "knowledge-retrieval"

/-- Effectful map over a list in the Option monad, mirroring a Python
loop whose body may raise: the first failure aborts the loop. -/
def optionMapM (f : α → Option β) : List α → Option (List β)
  | [] => some []
  | x :: xs => do
    let y ← f x
    let ys ← optionMapM f xs
    pure (y :: ys)

/-- One line of the frontmatter-usage listing: the percentage divides the
field count by the total file count. -/
def fm_field_line (total_files : Nat) (e : Yaml × Nat) : Option String := do
  let pct ← pyDivNat e.2 total_files
  pure ("- `" ++ pyStrOf e.1 ++ "`: " ++ natStr e.2 ++ " files (" ++
    fmt0f (pct.mul ⟨100, 1⟩) ++ "%)\n")

/-- The frontmatter-usage paragraph of the report; each listed field
divides its file count by the total file count, which raises
ZeroDivisionError when the corpus is empty. -/
def fm_usage_section (ff : List (Yaml × Nat)) (total_files : Nat) : Option String :=
  if ff.isEmpty then some "No YAML frontmatter detected\n"
  else do
    let lines ← optionMapM (fm_field_line total_files) (mostCommon ff 10)
    pure ("Common frontmatter fields:\n\n" ++ String.join lines)

/-- The linking-patterns paragraph of the report; the average divides the
wikilink count by the total file count. -/
def linking_section (wikilinks : List String) (backlinks : List (String × List String))
    (total_files : Nat) : Option String :=
  if wikilinks.length > 0 then do
    let avg ← pyDivNat wikilinks.length total_files
    let base := "- **Total wikilinks**: " ++ natStr wikilinks.length ++ "\n" ++
      "- **Average per file**: " ++ fmt1f avg ++ "\n"
    let more :=
      if ¬ backlinks.isEmpty then
        "\nMost referenced pages:\n\n" ++
        String.join (((sSort (fun x y => y.2.length < x.2.length) backlinks).take 5).map
          (fun e => "- `" ++ e.1 ++ "`: " ++ natStr e.2.length ++ " references\n"))
      else ""
    pure (base ++ more)
  else some "No wikilinks detected\n"

/-- The two computed rows of the token-budget table: the truncated average
token count per file and the truncated three-file synthesis estimate,
both dividing by the total file count. -/
def budget_rows (est : PyFloat) (total_files : Nat) : Option (String × String) := do
  let avg ← pyDivByCount est total_files
  pure (intStr avg.toInt, intStr ((avg.mul ⟨3, 1⟩).toInt))

/-- Python str.replace of spaces by hyphens. -/
def replaceSpaces (s : String) : String :=
  ⟨s.data.map (fun c => if c = ' ' then '-' else c)⟩

/-- The reference-file lines of the suggested structure, one per leading
topic; calling lower() on a non-string topic raises an AttributeError,
modelled as none. -/
def topic_ref_line (t : Yaml) : Option String :=
  match t with
  | .str s => some ("│   ├── " ++ replaceSpaces (pyLower s) ++ ".md\n")
  | _ => none

/-- The reference-file lines of the suggested structure proper. -/
def suggested_refs_section (topics : List Yaml) : Option String := do
  let lines ← optionMapM topic_ref_line (topics.take 3)
  pure (String.join lines)

/-- Embedding of generate_report: renders the analysis and the current
date (the strftime of datetime.now) into the markdown report returned by
the function; printing and file writing are outside the model.  A
ZeroDivisionError (empty corpus) or AttributeError (non-string leading
topic) is modelled as none. -/
def generate_report (a : Analysis) (today : String) : Option String := do
  let ls := estimate_loading_strategy a.estimated_tokens a.total_files
  let s1 := "# Knowledge Repository Analysis\n\n**Repository**: `" ++ a.path ++
    "`\n**Analysis Date**: " ++ today ++ "\n\n## Summary\n\n- **Total Files**: " ++
    natStr a.total_files ++ " markdown documents\n- **Total Size**: " ++
    commaNat a.total_size ++ " bytes\n- **Estimated Tokens**: ~" ++
    commaInt a.estimated_tokens.toInt ++ " tokens\n- **Topics Identified**: " ++
    natStr a.topics.length ++ "\n- **Unique Tags**: " ++ natStr a.tags.length ++
    "\n- **Wikilinks Found**: " ++ natStr a.wikilinks.length ++
    "\n\n## Repository Structure\n\n### Directory Organization\n\n"
  let dirLines := String.join ((sSort (fun x y => strLtBool x.1 y.1) a.file_structure).map
    (fun e => "- `" ++ e.1 ++ "`: " ++ natStr e.2 ++ " files\n"))
  let s2 := "\n\n### Main Topics\n\nBased on directory names and common tags:\n\n"
  let topicLines := String.join ((a.topics.take 10).map (fun t => "- " ++ pyStrOf t ++ "\n"))
  let s3 := "\n\n## Content Patterns\n\n### Frontmatter Usage\n\n"
  let fmS ← fm_usage_section a.frontmatter_fields a.total_files
  let s4 := "\n\n### Tag Distribution\n\n"
  let tagS :=
    if ¬ a.tags.isEmpty then
      "Most common tags:\n\n" ++ String.join ((mostCommon a.tags 10).map
        (fun e => "- `#" ++ pyStrOf e.1 ++ "`: " ++ natStr e.2 ++ " occurrences\n"))
    else "No tags detected\n"
  let s5 := "\n\n### Linking Patterns\n\n"
  let linkS ← linking_section a.wikilinks a.backlinks a.total_files
  let s6 := "\n\n## Recommended Skill Configuration\n\n### Skill Type\n\n"
  let st := recommend_skill_type a.tags
  let skillS := "**Recommended**: `" ++ st ++ "`\n\n" ++
    (if st = "framework-guidance" then
      "Repository appears to contain frameworks or templates. Consider creating a framework-guidance skill.\n"
    else
      "Repository appears to be general knowledge content. Consider creating a knowledge-retrieval skill.\n")
  let s7 := "\n\n### Loading Strategy\n\n**Recommended**: `" ++ ls.1 ++ "`\n\n" ++ ls.2 ++ "\n\n"
  let triggers :=
    if ls.1 = "selective" then
      "\nSuggested trigger keywords:\n\n" ++
      String.join ((a.topics.take 5).map (fun t => "- " ++ pyStrOf t ++ "\n"))
    else ""
  let rows ← budget_rows a.estimated_tokens a.total_files
  let budgetS := "\n\n### Token Budget Estimates\n\nBased on repository size and structure:\n\n" ++
    "| Operation | Estimated Tokens | Notes |\n|-----------|------------------|-------|\n" ++
    "| Skill metadata | ~100 | Name + description |\n" ++
    "| SKILL.md body | ~2000-2500 | Core capabilities and patterns |\n" ++
    "| Quick reference | ~500-1000 | Common patterns extracted |\n" ++
    "| Single doc lookup | ~" ++ rows.1 ++ " | Average per file |\n" ++
    "| Multi-doc synthesis | ~" ++ rows.2 ++ " | 3 files combined |\n" ++
    "| Full knowledge base | ~" ++ commaInt a.estimated_tokens.toInt ++
    " | All content (use on-demand) |\n\n### Suggested Structure\n\n```\nskill-name/\n" ++
    "├── SKILL.md\n├── scripts/\n├── references/\n" ++
    "│   ├── quick-reference.md      # Top patterns/concepts (~500-1000 tokens)\n"
  let refsS ← suggested_refs_section a.topics
  let tail := "└── assets/\n    └── templates/              # If framework-guidance type\n" ++
    "```\n\n### Next Steps\n\n1. Run `init_knowledge_skill.py` with `--type \x7bskill_type\x7d` template\n" ++
    "2. Copy key documents to `references/` directory\n" ++
    "3. Create quick-reference guide with most common patterns\n" ++
    "4. Configure loading triggers based on suggested keywords\n" ++
    "5. Test with representative queries\n6. Validate and package\n\n" ++
    "## Sample Skill Configuration\n\n```yaml\n---\nname: [your-skill-name]\n" ++
    "description: [Brief description mentioning \x7b\x27, \x27.join(analysis[\x27topics\x27][:3])\x7d. " ++
    "Use when users ask about \x7banalysis[\x27topics\x27][0] if analysis[\x27topics\x27] else \x27relevant topics\x27\x7d.]\n" ++
    "---\n```\n\n## Analysis Details\n\n### Individual Files\n\n" ++
    "Top 10 largest files by estimated token count:\n\n"
  let ranking := String.join
    (((sSort (fun x y => PyFloat.ltF y.estimated_tokens x.estimated_tokens) a.files).take 10).enum.map
      (fun e => natStr (e.1 + 1) ++ ". `" ++ e.2.relative_path ++ "`: ~" ++
        commaInt e.2.estimated_tokens.toInt ++ " tokens\n"))
  pure (s1 ++ dirLines ++ s2 ++ topicLines ++ s3 ++ fmS ++ s4 ++ tagS ++ s5 ++ linkS ++
    s6 ++ skillS ++ s7 ++ triggers ++ budgetS ++ refsS ++ tail ++ ranking)

/-- Lookup of a string key in a parsed frontmatter dict (Python key
membership and subscript agree on this). -/
def fmLookup (fm : List (Yaml × Yaml)) (k : String) : Option Yaml :=
  (fm.find? (fun kv => pyEq kv.1 (.str k))).map (fun kv => kv.2)

/-- The name pattern of the validator, the regex caret [a-z0-9-]+ dollar
under re.match: one or more characters, each a lowercase letter, a digit
or a hyphen, spanning the whole name, where the dollar anchor also
matches just before a single newline ending the string, so exactly one
trailing newline is tolerated. -/
def skillNameOk (s : String) : Bool :=
  let core := match s.data.reverse with
    | '\n' :: rest => rest.reverse
    | _ => s.data
  ¬ core.isEmpty && core.all (fun c => c.isLower || c.isDigit || c = '-')

/-- The errors contributed by the required-field loop of
check_frontmatter. -/
def requiredFieldErrors (fm : List (Yaml × Yaml)) : List String :=
  (if (fmLookup fm "name").isNone then
    ["Required frontmatter field \x27name\x27 is missing"] else []) ++
  (if (fmLookup fm "description").isNone then
    ["Required frontmatter field \x27description\x27 is missing"] else [])

/-- The errors contributed by the name checks of check_frontmatter. -/
def nameErrors (fm : List (Yaml × Yaml)) : List String :=
  match fmLookup fm "name" with
  | none => []
  | some (.str s) =>
    (if ¬ skillNameOk s then
      ["Field \x27name\x27 must contain only lowercase letters, numbers, and hyphens"] else []) ++
    (if s.length > 64 then
      ["Field \x27name\x27 must be 64 characters or less (currently " ++ natStr s.length ++ ")"] else [])
  | some _ => ["Field \x27name\x27 must be a string"]

/-- The errors contributed by the description checks of
check_frontmatter: over-length first, emptiness after the TODO warning. -/
def descriptionErrors (fm : List (Yaml × Yaml)) : List String :=
  match fmLookup fm "description" with
  | none => []
  | some (.str d) =>
    (if d.length > 1024 then
      ["Field \x27description\x27 must be 1024 characters or less (currently " ++
        natStr d.length ++ ")"] else []) ++
    (if d.data.all isPySpace then ["Field \x27description\x27 cannot be empty"] else [])
  | some _ => ["Field \x27description\x27 must be a string"]

/-- The error contributed by the allowed-tools check of
check_frontmatter. -/
def allowedToolsErrors (fm : List (Yaml × Yaml)) : List String :=
  match fmLookup fm "allowed-tools" with
  | none => []
  | some (.list _) => []
  | some _ => ["Field \x27allowed-tools\x27 must be a list"]

/-- The warnings of check_frontmatter (TODO placeholders in the name or
the description). -/
def frontmatterWarnings (fm : List (Yaml × Yaml)) : List String :=
  (match fmLookup fm "name" with
   | some (.str s) =>
     if pyInStr (pyLower s) "todo" then
       ["Field \x27name\x27 appears to contain TODO placeholder"] else []
   | _ => []) ++
  (match fmLookup fm "description" with
   | some (.str d) =>
     if pyInStr d "[TODO" || pyInStr d "TODO:" then
       ["Field \x27description\x27 contains TODO placeholders"] else []
   | _ => [])

/-- Embedding of SkillValidator.check_frontmatter: the blocking errors and
the advisory warnings recorded for a parsed frontmatter dict, in source
order (required fields, name checks, description checks, allowed-tools
check). -/
def check_frontmatter (fm : List (Yaml × Yaml)) : List String × List String :=
  (requiredFieldErrors fm ++ nameErrors fm ++ descriptionErrors fm ++ allowedToolsErrors fm,
   frontmatterWarnings fm)

/-- Whether a path component is hidden (Python str.startswith with a dot). -/
def startsWithDot (s : String) : Bool :=
  match s.data with
  | c :: _ => c = '.'
  | [] => false

/-- Whether any component of a path is hidden. -/
def hasHiddenPart (parts : List String) : Bool := parts.any startsWithDot

/-- The pathlib suffix of a file name: the part from the last dot on, when
that dot is neither the first nor the last character, and empty
otherwise. -/
def pySuffix (name : String) : String :=
  let s := name.data
  match s.reverse.findIdx? (fun c => c = '.') with
  | none => ""
  | some k =>
    let i := s.length - 1 - k
    if 0 < i ∧ i < s.length - 1 then ⟨s.drop i⟩ else ""

/-- Rendering of a path from its components (posix separator). -/
def pathJoin (parts : List String) : String := "/".intercalate parts

/-- Whether a file is a compiled artifact in the sense of the packager: a
pyc or pyo suffix, or the text pycache surrounded by double underscores
occurring anywhere in the rendered path. -/
def isCompiledArtifact (fullParts : List String) : Bool :=
  (pySuffix (fullParts.getLastD "") = ".pyc" || pySuffix (fullParts.getLastD "") = ".pyo") ||
  pyInStr (pathJoin fullParts) "__pycache__"

/-- The skip test of the packaging loop, applied to the full path
components of a regular file found under the skill directory. -/
def packageSkips (fullParts : List String) : Bool :=
  hasHiddenPart fullParts || isCompiledArtifact fullParts

/-- Embedding of the archive-filling loop of package_skill: the files are
the regular files yielded by the recursive glob, each given by its path
components relative to the skill directory and its content bytes; kept
files are written to the archive under their path relative to the parent
of the skill directory (the skill directory name followed by the relative
components), with content unchanged. -/
def package_skill (parentParts : List String) (skillName : String) :
    List (List String × β) → List (List String × β)
  | [] => []
  | (rel, bytes) :: rest =>
    if packageSkips (parentParts ++ skillName :: rel) then
      package_skill parentParts skillName rest
    else (skillName :: rel, bytes) :: package_skill parentParts skillName rest

/-- A zip archive, modelled as its entry list (the zip container is
lossless for the stored names and bytes). -/
structure ZipArchive (β : Type) where
  entries : List (List String × β)

/-- Building the archive produced by package_skill. -/
def build_skill_archive (parentParts : List String) (skillName : String)
    (files : List (List String × β)) : ZipArchive β :=
  ⟨package_skill parentParts skillName files⟩

/-- Extraction of a zip archive: every stored entry is reproduced with its
archived name and bytes. -/
def extract_zip (z : ZipArchive β) : List (List String × β) := z.entries

/-- Ok-destructuring of a bound Except computation. -/
theorem except_bind_ok {ε α β : Type} (x : Except ε α) (f : α → Except ε β) (b : β) :
    (x >>= f) = .ok b ↔ ∃ a, x = .ok a ∧ f a = .ok b := by
  cases x <;> simp [Bind.bind, Except.bind]

/-- Comparison with a natural threshold agrees with the value comparison
when the denominator is positive. -/
theorem PyFloat.ltNat_iff (f : PyFloat) (n : Nat) (h : 0 < f.den) :
    f.ltNat n = true ↔ f.toRat < (n : ℚ) := by
  have hden : (0 : ℚ) < (f.den : ℚ) := by exact_mod_cast h
  rw [PyFloat.ltNat, PyFloat.toRat, decide_eq_true_eq, div_lt_iff₀ hden]
  exact_mod_cast Iff.rfl

/-- C1: for every pair of a non-negative token total and a file count, the
loading-strategy estimator returns always iff tokens are below 5000 and
files below 10; otherwise selective iff tokens are below 20000 and files
below 50; otherwise on-demand — the conditions tested in that order with
the first match winning. -/
theorem loading_strategy_characterization (t : PyFloat) (f : Nat)
    (hden : 0 < t.den) (_hnn : 0 ≤ t.num) :
    ((estimate_loading_strategy t f).1 = "always" ↔ t.toRat < 5000 ∧ f < 10) ∧
    ((estimate_loading_strategy t f).1 = "selective" ↔
      ¬ (t.toRat < 5000 ∧ f < 10) ∧ (t.toRat < 20000 ∧ f < 50)) ∧
    ((estimate_loading_strategy t f).1 = "on-demand" ↔
      ¬ (t.toRat < 5000 ∧ f < 10) ∧ ¬ (t.toRat < 20000 ∧ f < 50)) := by
  have h5 := PyFloat.ltNat_iff t 5000 hden
  have h20 := PyFloat.ltNat_iff t 20000 hden
  norm_num at h5 h20
  have hAS : ("always" : String) ≠ "selective" := by decide
  have hAO : ("always" : String) ≠ "on-demand" := by decide
  have hSO : ("selective" : String) ≠ "on-demand" := by decide
  rw [← h5, ← h20]
  unfold estimate_loading_strategy
  split_ifs with hA hB <;> simp_all

/-- C1 witness: the four boundary cases of the claim, obtained from the
characterization. -/
theorem loading_strategy_characterization_witness :
    (estimate_loading_strategy ⟨4999, 1⟩ 9).1 = "always" ∧
    (estimate_loading_strategy ⟨5000, 1⟩ 9).1 = "selective" ∧
    (estimate_loading_strategy ⟨19999, 1⟩ 49).1 = "selective" ∧
    (estimate_loading_strategy ⟨20000, 1⟩ 1).1 = "on-demand" := by
  refine ⟨?_, ?_, ?_, ?_⟩
  · exact (loading_strategy_characterization ⟨4999, 1⟩ 9 (by decide) (by decide)).1.mpr
      ⟨by norm_num [PyFloat.toRat], by decide⟩
  · exact (loading_strategy_characterization ⟨5000, 1⟩ 9 (by decide) (by decide)).2.1.mpr
      ⟨by norm_num [PyFloat.toRat], by norm_num [PyFloat.toRat], by decide⟩
  · exact (loading_strategy_characterization ⟨19999, 1⟩ 49 (by decide) (by decide)).2.1.mpr
      ⟨by norm_num [PyFloat.toRat], by norm_num [PyFloat.toRat], by decide⟩
  · exact (loading_strategy_characterization ⟨20000, 1⟩ 1 (by decide) (by decide)).2.2.mpr
      ⟨by norm_num [PyFloat.toRat], by norm_num [PyFloat.toRat]⟩

/-- C7: packaging a skill directory and extracting the archive reproduces
exactly the non-excluded files: each entry keeps its content bytes and its
path relative to the parent of the skill directory, and a file is excluded
precisely when its full path has a hidden component or it is a compiled
artifact (pyc or pyo suffix, or a pycache segment in the path). -/
theorem package_extract_roundtrip (parentParts : List String) (skillName : String)
    (files : List (List String × List Nat)) :
    extract_zip (build_skill_archive parentParts skillName files) =
      (files.filter (fun f => ¬ (hasHiddenPart (parentParts ++ skillName :: f.1) ||
        isCompiledArtifact (parentParts ++ skillName :: f.1)))).map
        (fun f => (skillName :: f.1, f.2)) := by
  show package_skill parentParts skillName files = _
  induction files with
  | nil => rfl
  | cons f rest ih =>
    rw [package_skill, List.filter_cons]
    by_cases h : (hasHiddenPart (parentParts ++ skillName :: f.1) ||
        isCompiledArtifact (parentParts ++ skillName :: f.1)) = true
    · have hskip : packageSkips (parentParts ++ skillName :: f.1) = true := by
        rw [packageSkips]; exact h
      rw [if_pos hskip, if_neg (by simp [h]), ih]
    · have hskip : ¬ (packageSkips (parentParts ++ skillName :: f.1) = true) := by
        rw [packageSkips]; exact h
      rw [if_neg hskip, if_pos (by simp [h]), List.map_cons, ih]

/-- C10: the hidden-file test of the packager inspects every component of
the full path of each file, so a skill directory whose own path contains a
dot-prefixed component produces an archive with no entries. -/
theorem package_skill_hidden_dir_empty (parentParts : List String) (skillName : String)
    (files : List (List String × List Nat))
    (h : hasHiddenPart (parentParts ++ [skillName]) = true) :
    package_skill parentParts skillName files = [] := by
  induction files with
  | nil => rfl
  | cons f rest ih =>
    have hskip : packageSkips (parentParts ++ skillName :: f.1) = true := by
      rw [hasHiddenPart, List.any_eq_true] at h
      obtain ⟨p, hp, hdot⟩ := h
      rw [packageSkips, hasHiddenPart, Bool.or_eq_true, List.any_eq_true]
      refine Or.inl ⟨p, ?_, hdot⟩
      rcases List.mem_append.mp hp with h1 | h1
      · exact List.mem_append.mpr (Or.inl h1)
      · simp only [List.mem_singleton] at h1
        subst h1
        exact List.mem_append.mpr (Or.inr (List.mem_cons_self _ _))
    rw [package_skill, if_pos hskip]
    exact ih

/-- C10 witness: a skill directory below a hidden parent directory
packages to an empty archive. -/
theorem package_skill_hidden_dir_empty_witness :
    package_skill [".skills"] "my-skill" [(["SKILL.md"], [83, 75]), (["scripts", "run.py"], [35])] =
      ([] : List (List String × List Nat)) :=
  package_skill_hidden_dir_empty [".skills"] "my-skill" _ (by decide)

/-- A minimal per-file record used to exercise report generation on a
concrete corpus analysis. -/
def demoFileRec : FileAnalysis := {
  path := "/r/a.md"
  relative_path := "a.md"
  size := 11
  estimated_tokens := ⟨26, 10⟩
  frontmatter := .dict []
  tags := []
  wikilinks := []
  headings := []
  has_code_blocks := false }

/-- A concrete one-file corpus analysis. -/
def demoOneAnalysis : Analysis := {
  path := "/r"
  files := [demoFileRec]
  total_files := 1
  total_size := 11
  frontmatter_fields := []
  tags := []
  wikilinks := []
  backlinks := []
  file_structure := [("root", 1)]
  topics := []
  estimated_tokens := ⟨26, 10⟩ }

/-- A concrete empty corpus analysis. -/
def demoEmptyAnalysis : Analysis := {
  path := "/r"
  files := []
  total_files := 0
  total_size := 0
  frontmatter_fields := []
  tags := []
  wikilinks := []
  backlinks := []
  file_structure := []
  topics := []
  estimated_tokens := ⟨0, 1⟩ }

/-- C8 counterexample: report generation is not a function of the corpus
analysis alone — the current date is interpolated into the Analysis Date
line, so the same analysis rendered on two different dates yields two
different markdown documents. -/
theorem generate_report_depends_on_date :
    generate_report demoOneAnalysis "2026-01-01" ≠ generate_report demoOneAnalysis "2026-01-02" := by
  decide

/-- C8 (amended): report generation is a deterministic function of the
corpus analysis and the current date together: equal analyses rendered on
equal dates produce identical markdown. -/
theorem generate_report_deterministic (a1 a2 : Analysis) (d1 d2 : String)
    (ha : a1 = a2) (hd : d1 = d2) :
    generate_report a1 d1 = generate_report a2 d2 := by
  rw [ha, hd]

/-- C8 witness: the deterministic rendering at a concrete analysis and
date. -/
theorem generate_report_deterministic_witness :
    generate_report demoOneAnalysis "2026-01-01" = generate_report demoOneAnalysis "2026-01-01" :=
  generate_report_deterministic demoOneAnalysis demoOneAnalysis "2026-01-01" "2026-01-01" rfl rfl

/-- The frontmatter value computed by analyze_file before tag extraction. -/
def frontmatterOf (yamlLoad : List Char → Except PyErr Yaml) (content : String) : Yaml :=
  match extractFmBlock content.data with
  | none => .dict []
  | some body =>
    match yamlLoad body with
    | .error _ => .dict []
    | .ok v => if pyFalsy v then .dict [] else v

/-- When the computed frontmatter is a dict, analyze_file succeeds and
stores exactly that dict. -/
theorem analyze_file_dict_fm (yamlLoad : List Char → Except PyErr Yaml)
    (p rp content : String) (kvs : List (Yaml × Yaml))
    (hfm : frontmatterOf yamlLoad content = .dict kvs) :
    (analyze_file yamlLoad p rp content).map (fun fi => fi.frontmatter) = .ok (.dict kvs) := by
  have hshape : analyze_file yamlLoad p rp content =
      (do
        let hasTags ← pyIn "tags" (frontmatterOf yamlLoad content)
        let tags0 : List Yaml ←
          if hasTags then do
            let tv ← pyGetItem (frontmatterOf yamlLoad content) "tags"
            match tv with
            | .list xs => pure xs
            | .str s => pure [.str s]
            | _ => pure []
          else pure []
        let hashtags := (findHashtags content.data).map (fun w => Yaml.str ⟨w⟩)
        pure {
          path := p
          relative_path := rp
          size := content.data.length
          estimated_tokens := (PyFloat.ofNat (countWords content.data)).mul pyOnePointThree
          frontmatter := frontmatterOf yamlLoad content
          tags := tags0 ++ hashtags
          wikilinks := (findWikilinks content.data).map (fun w => (⟨w⟩ : String))
          headings := (findHeadings content.data).map (fun w => (⟨w⟩ : String))
          has_code_blocks := containsSub "```".data content.data
        }) := rfl
  rw [hshape, hfm]
  by_cases htag : kvs.any (fun kv => pyEq kv.1 (.str "tags")) = true
  · have hfindSome : (kvs.find? (fun kv => pyEq kv.1 (.str "tags"))).isSome := by
      rw [List.find?_isSome]
      rw [List.any_eq_true] at htag
      exact htag
    obtain ⟨kv, hfind⟩ := Option.isSome_iff_exists.mp hfindSome
    simp only [Bind.bind, Except.bind, pyIn, htag, if_true, pyGetItem, hfind]
    cases kv.2 <;> simp [Bind.bind, Except.bind, Except.map, pure, Except.pure]
  · simp only [Bind.bind, Except.bind, pyIn, htag, if_false, Bool.false_eq_true]
    simp [Bind.bind, Except.bind, Except.map, pure, Except.pure]

/-- C2 counterexample: a file whose frontmatter block is well formed and
valid YAML but parses to the scalar 5 makes analyze_file itself raise a
TypeError (the membership test tags in 5), so the per-file analyzer can
fail on frontmatter and the error is propagated, aborting the corpus-wide
analysis. -/
theorem analyze_file_scalar_frontmatter_raises :
    analyze_file yamlLoadModel "a.md" "a.md" "---\n5\n---\nx" = .error .typeError := by
  rfl

/-- C2 (amended): for every file without a frontmatter block, and for
every file whose block fails to parse, the stored frontmatter is the empty
mapping and analysis of the file succeeds; for every file whose block
parses to a YAML mapping, the stored frontmatter is exactly that mapping
and analysis succeeds.  (A block parsing to a truthy non-mapping value is
stored as parsed and can make tag extraction raise, as the counterexample
shows.) -/
theorem analyze_file_frontmatter_amended (yamlLoad : List Char → Except PyErr Yaml)
    (p rp content : String) :
    (extractFmBlock content.data = none →
      (analyze_file yamlLoad p rp content).map (fun fi => fi.frontmatter) = .ok (.dict [])) ∧
    (∀ body e, extractFmBlock content.data = some body → yamlLoad body = .error e →
      (analyze_file yamlLoad p rp content).map (fun fi => fi.frontmatter) = .ok (.dict [])) ∧
    (∀ body m, extractFmBlock content.data = some body → yamlLoad body = .ok (.dict m) →
      (analyze_file yamlLoad p rp content).map (fun fi => fi.frontmatter) = .ok (.dict m)) := by
  refine ⟨fun h => ?_, fun body e hb hy => ?_, fun body m hb hy => ?_⟩
  · exact analyze_file_dict_fm yamlLoad p rp content [] (by simp [frontmatterOf, h])
  · exact analyze_file_dict_fm yamlLoad p rp content [] (by simp [frontmatterOf, hb, hy])
  · refine analyze_file_dict_fm yamlLoad p rp content m ?_
    cases m with
    | nil => simp [frontmatterOf, hb, hy, pyFalsy]
    | cons kv rest => simp [frontmatterOf, hb, hy, pyFalsy]

/-- C2 witness: a file with no block, a file with a malformed block, and
a file with a well-formed mapping block, each analysed without error and
with the stated frontmatter. -/
theorem analyze_file_frontmatter_amended_witness :
    (analyze_file yamlLoadModel "a.md" "a.md" "no frontmatter here").map
      (fun fi => fi.frontmatter) = .ok (.dict []) ∧
    (analyze_file yamlLoadModel "b.md" "b.md" "---\n[\n---\nx").map
      (fun fi => fi.frontmatter) = .ok (.dict []) ∧
    (analyze_file yamlLoadModel "c.md" "c.md" "---\ntitle: hi\n---\nbody").map
      (fun fi => fi.frontmatter) = .ok (.dict [(.str "title", .str "hi")]) :=
  ⟨(analyze_file_frontmatter_amended yamlLoadModel "a.md" "a.md" "no frontmatter here").1 rfl,
   (analyze_file_frontmatter_amended yamlLoadModel "b.md" "b.md" "---\n[\n---\nx").2.1
     "[".data .yamlError rfl rfl,
   (analyze_file_frontmatter_amended yamlLoadModel "c.md" "c.md" "---\ntitle: hi\n---\nbody").2.2
     "title: hi".data [(.str "title", .str "hi")] rfl rfl⟩

/-- The name rule of the claim: the field must be present, a string,
matching lowercase letters, digits and hyphens, of length at most 64. -/
def nameRuleViolated (fm : List (Yaml × Yaml)) : Bool :=
  match fmLookup fm "name" with
  | none => true
  | some (.str s) => ¬ skillNameOk s || decide (s.length > 64)
  | some _ => true

/-- The description rule of the claim: the field must be present, a
non-empty (not all whitespace) string of length at most 1024. -/
def descriptionRuleViolated (fm : List (Yaml × Yaml)) : Bool :=
  match fmLookup fm "description" with
  | none => true
  | some (.str d) => decide (d.length > 1024) || d.data.all isPySpace
  | some _ => true

/-- The allowed-tools check of the validator, as a predicate: the field is
present and is not a list. -/
def allowedToolsRuleViolated (fm : List (Yaml × Yaml)) : Bool :=
  match fmLookup fm "allowed-tools" with
  | none => false
  | some (.list _) => false
  | some _ => true

/-- A frontmatter whose name and description are valid but whose
allowed-tools field is a plain string. -/
def allowedToolsCounterFm : List (Yaml × Yaml) :=
  [(.str "name", .str "my-skill"), (.str "description", .str "Validates skills."),
   (.str "allowed-tools", .str "Bash")]

/-- C6 counterexample: the validator also records a blocking error when an
allowed-tools field is present and not a list, so an error can be recorded
although neither the name rule nor the description rule is violated. -/
theorem check_frontmatter_allowed_tools_error :
    (check_frontmatter allowedToolsCounterFm).1 ≠ [] ∧
    nameRuleViolated allowedToolsCounterFm = false ∧
    descriptionRuleViolated allowedToolsCounterFm = false := by
  decide

/-- The required-field loop contributes an error iff a required field is
missing. -/
theorem requiredFieldErrors_ne_nil (fm : List (Yaml × Yaml)) :
    requiredFieldErrors fm ≠ [] ↔
      ((fmLookup fm "name").isNone ∨ (fmLookup fm "description").isNone) := by
  rw [requiredFieldErrors]
  by_cases h1 : (fmLookup fm "name").isNone <;>
    by_cases h2 : (fmLookup fm "description").isNone <;> simp [h1, h2]

/-- The name checks contribute an error iff the field is present and
violates the name rule. -/
theorem nameErrors_ne_nil (fm : List (Yaml × Yaml)) :
    nameErrors fm ≠ [] ↔ ((fmLookup fm "name").isSome ∧ nameRuleViolated fm = true) := by
  rcases h : fmLookup fm "name" with _ | v
  · simp [nameErrors, nameRuleViolated, h]
  · rcases v with _ | b | n | s | xs | kvs
    case str =>
      by_cases h1 : skillNameOk s = true <;> by_cases h2 : s.length > 64 <;>
        simp [nameErrors, nameRuleViolated, h, h1, h2]
    all_goals simp [nameErrors, nameRuleViolated, h]

/-- The description checks contribute an error iff the field is present
and violates the description rule. -/
theorem descriptionErrors_ne_nil (fm : List (Yaml × Yaml)) :
    descriptionErrors fm ≠ [] ↔
      ((fmLookup fm "description").isSome ∧ descriptionRuleViolated fm = true) := by
  rcases h : fmLookup fm "description" with _ | v
  · simp [descriptionErrors, descriptionRuleViolated, h]
  · rcases v with _ | b | n | s | xs | kvs
    case str =>
      by_cases h1 : s.length > 1024 <;> by_cases h2 : s.data.all isPySpace = true <;>
        simp [descriptionErrors, descriptionRuleViolated, h, h1, h2]
    all_goals simp [descriptionErrors, descriptionRuleViolated, h]

/-- The allowed-tools check contributes an error iff its predicate holds. -/
theorem allowedToolsErrors_ne_nil (fm : List (Yaml × Yaml)) :
    allowedToolsErrors fm ≠ [] ↔ allowedToolsRuleViolated fm = true := by
  rcases h : fmLookup fm "allowed-tools" with _ | v
  · simp [allowedToolsErrors, allowedToolsRuleViolated, h]
  · rcases v with _ | b | n | s | xs | kvs <;> simp [allowedToolsErrors, allowedToolsRuleViolated, h]

/-- C6 (amended): the validator records a blocking error iff the name
rule is violated, the description rule is violated, or an allowed-tools
field is present and not a list; in particular an uppercase name errors, a
valid name with a 1024-character description passes, a 1025-character
description errors, and a name with a single trailing newline passes (the
dollar anchor of the name regex matches before it). -/
theorem check_frontmatter_errors_iff :
    (∀ fm, (check_frontmatter fm).1 ≠ [] ↔
      (nameRuleViolated fm || descriptionRuleViolated fm || allowedToolsRuleViolated fm) = true) ∧
    (check_frontmatter [(.str "name", .str "My-Skill"),
      (.str "description", .str "Validates skills.")]).1 ≠ [] ∧
    (check_frontmatter [(.str "name", .str "my-skill"),
      (.str "description", .str ⟨List.replicate 1024 'a'⟩)]).1 = [] ∧
    (check_frontmatter [(.str "name", .str "my-skill"),
      (.str "description", .str ⟨List.replicate 1025 'a'⟩)]).1 ≠ [] ∧
    (check_frontmatter [(.str "name", .str "my-skill\n"),
      (.str "description", .str "Validates skills.")]).1 = [] := by
  refine ⟨fun fm => ?_, by decide, by decide, by decide, by decide⟩
  have hsplit : (check_frontmatter fm).1 ≠ [] ↔
      (requiredFieldErrors fm ≠ [] ∨ nameErrors fm ≠ [] ∨ descriptionErrors fm ≠ [] ∨
        allowedToolsErrors fm ≠ []) := by
    rw [check_frontmatter]
    simp only [ne_eq, List.append_eq_nil]
    tauto
  rw [hsplit, requiredFieldErrors_ne_nil, nameErrors_ne_nil, descriptionErrors_ne_nil,
    allowedToolsErrors_ne_nil]
  rcases hn : fmLookup fm "name" with _ | nv <;>
    rcases hd : fmLookup fm "description" with _ | dv <;>
      simp [nameRuleViolated, descriptionRuleViolated, hn, hd, Bool.or_eq_true] <;> tauto


/-- The initial analysis dict of analyze_repository, with the total file
count already set. -/
def initAnalysis (root : String) (n : Nat) : Analysis := {
  path := root
  files := []
  total_files := n
  total_size := 0
  frontmatter_fields := []
  tags := []
  wikilinks := []
  backlinks := []
  file_structure := []
  topics := []
  estimated_tokens := ⟨0, 1⟩ }

/-- Unfolding of analyze_file with the frontmatter written through
frontmatterOf. -/
theorem analyze_file_unfold (yamlLoad : List Char → Except PyErr Yaml)
    (p rp content : String) :
    analyze_file yamlLoad p rp content =
      (do
        let hasTags ← pyIn "tags" (frontmatterOf yamlLoad content)
        let tags0 : List Yaml ←
          if hasTags then do
            let tv ← pyGetItem (frontmatterOf yamlLoad content) "tags"
            match tv with
            | .list xs => pure xs
            | .str s => pure [.str s]
            | _ => pure []
          else pure []
        let hashtags := (findHashtags content.data).map (fun w => Yaml.str ⟨w⟩)
        pure {
          path := p
          relative_path := rp
          size := content.data.length
          estimated_tokens := (PyFloat.ofNat (countWords content.data)).mul pyOnePointThree
          frontmatter := frontmatterOf yamlLoad content
          tags := tags0 ++ hashtags
          wikilinks := (findWikilinks content.data).map (fun w => (⟨w⟩ : String))
          headings := (findHeadings content.data).map (fun w => (⟨w⟩ : String))
          has_code_blocks := containsSub "```".data content.data
        }) := rfl

/-- Addition of modelled floats is exact on values whenever the
denominators are non-zero. -/
theorem PyFloat.toRat_add (a b : PyFloat) (ha : a.den ≠ 0) (hb : b.den ≠ 0) :
    (a.add b).toRat = a.toRat + b.toRat := by
  have ha' : ((a.den : ℚ)) ≠ 0 := by exact_mod_cast ha
  have hb' : ((b.den : ℚ)) ≠ 0 := by exact_mod_cast hb
  rw [PyFloat.add, PyFloat.toRat, PyFloat.toRat, PyFloat.toRat]
  field_simp
  try push_cast
  try ring

/-- The value of a per-file token estimate is the word count times 1.3. -/
theorem est_toRat (n : Nat) :
    ((PyFloat.ofNat n).mul pyOnePointThree).toRat = (n : ℚ) * (13 / 10) := by
  rw [PyFloat.ofNat, PyFloat.mul, pyOnePointThree, PyFloat.toRat]
  push_cast
  ring

/-- The record produced by a successful analyze_file has the fields
computed from the content: in particular the stored relative path, the
token estimate, the wikilink list and the size. -/
theorem analyze_file_ok_fields (yamlLoad : List Char → Except PyErr Yaml)
    (p rp content : String) (fi : FileAnalysis)
    (h : analyze_file yamlLoad p rp content = .ok fi) :
    fi.relative_path = rp ∧
    fi.estimated_tokens = (PyFloat.ofNat (countWords content.data)).mul pyOnePointThree ∧
    fi.wikilinks = (findWikilinks content.data).map (fun w => (⟨w⟩ : String)) ∧
    fi.size = content.data.length := by
  rw [analyze_file_unfold] at h
  obtain ⟨ht, _, h⟩ := (except_bind_ok _ _ _).mp h
  simp only [Bind.bind, Except.bind, pure, Except.pure] at h
  cases ht
  · simp only [Bool.false_eq_true, if_false, Except.ok.injEq] at h
    subst h
    exact ⟨rfl, rfl, rfl, rfl⟩
  · rw [if_pos rfl] at h
    rcases hg : pyGetItem (frontmatterOf yamlLoad content) "tags" with e | tv
    · rw [hg] at h
      simp at h
    · rw [hg] at h
      cases tv <;> simp only [Except.ok.injEq] at h <;> (subst h; exact ⟨rfl, rfl, rfl, rfl⟩)

/-- The record produced by a successful aggregate_file step extends the
running analysis as the loop body does. -/
theorem aggregate_file_ok (s : Analysis) (fi : FileAnalysis) (t : Analysis)
    (h : aggregate_file s fi = .ok t) :
    t.files = s.files ++ [fi] ∧
    t.estimated_tokens = s.estimated_tokens.add fi.estimated_tokens ∧
    t.wikilinks = s.wikilinks ++ fi.wikilinks ∧
    t.backlinks = fi.wikilinks.foldl (fun bl l => blAppend bl l fi.relative_path) s.backlinks ∧
    t.total_size = s.total_size + fi.size ∧
    t.path = s.path ∧ t.total_files = s.total_files := by
  rw [aggregate_file] at h
  obtain ⟨fields, _, h⟩ := (except_bind_ok _ _ _).mp h
  obtain ⟨ff, _, h⟩ := (except_bind_ok _ _ _).mp h
  obtain ⟨tg, _, h⟩ := (except_bind_ok _ _ _).mp h
  simp only [pure, Except.pure, Except.ok.injEq] at h
  subst h
  exact ⟨rfl, rfl, rfl, rfl, rfl, rfl, rfl⟩

/-- Invariant transport along the scan loop: a property preserved by every
analyse-and-aggregate step holds of the final analysis. -/
theorem process_files_rec (yamlLoad : List Char → Except PyErr Yaml) (P : Analysis → Prop)
    (hstep : ∀ (s : Analysis) (f : MdFile) (fi : FileAnalysis) (t : Analysis),
      analyze_file yamlLoad f.path f.relPathStr f.content = .ok fi →
      aggregate_file s fi = .ok t → P s → P t) :
    ∀ (files : List MdFile) (s t : Analysis),
      process_files yamlLoad s files = .ok t → P s → P t := by
  intro files
  induction files with
  | nil =>
    intro s t h hp
    simp only [process_files, Except.ok.injEq] at h
    subst h
    exact hp
  | cons f rest ih =>
    intro s t h hp
    simp only [process_files] at h
    obtain ⟨fi, hfi, h⟩ := (except_bind_ok _ _ _).mp h
    obtain ⟨s2, hs2, h⟩ := (except_bind_ok _ _ _).mp h
    exact ih s2 t h (hstep s f fi s2 hfi hs2 hp)

/-- Ok-destructuring of a successful analyze_repository run: the final
record is the scanned state with the directory tree and the topics
attached. -/
theorem analyze_repository_ok (yamlLoad : List Char → Except PyErr Yaml)
    (root : String) (files : List MdFile) (a : Analysis)
    (h : analyze_repository yamlLoad root files = .ok a) :
    ∃ s : Analysis,
      process_files yamlLoad (initAnalysis root files.length) files = .ok s ∧
      a = { s with file_structure := build_directory_tree files,
                   topics := identify_topics (build_directory_tree files) s.tags } := by
  rw [analyze_repository] at h
  obtain ⟨s, hs, h⟩ := (except_bind_ok _ _ _).mp h
  simp only [pure, Except.pure, Except.ok.injEq] at h
  exact ⟨s, hs, h.symm⟩

/-- C4: the aggregate token estimate is exactly the running float sum of
the per-file estimates, its value is the rational sum of the per-file
values, and each per-file estimate is exactly the whitespace-delimited
word count times 1.3 (floats are modelled as exact fractions). -/
theorem estimated_tokens_exact (yamlLoad : List Char → Except PyErr Yaml)
    (root : String) (files : List MdFile) (a : Analysis)
    (h : analyze_repository yamlLoad root files = .ok a) :
    (a.estimated_tokens = a.files.foldl (fun acc fi => acc.add fi.estimated_tokens) ⟨0, 1⟩) ∧
    (a.estimated_tokens.toRat = (a.files.map (fun fi => fi.estimated_tokens.toRat)).sum) ∧
    (∀ p rp c fi, analyze_file yamlLoad p rp c = .ok fi →
      fi.estimated_tokens.toRat = (countWords c.data : ℚ) * (13 / 10)) := by
  obtain ⟨s, hs, ha⟩ := analyze_repository_ok yamlLoad root files a h
  have hstep : ∀ (s0 : Analysis) (f : MdFile) (fi : FileAnalysis) (t : Analysis),
      analyze_file yamlLoad f.path f.relPathStr f.content = .ok fi →
      aggregate_file s0 fi = .ok t →
      (s0.estimated_tokens = s0.files.foldl (fun acc fi => acc.add fi.estimated_tokens) ⟨0, 1⟩ ∧
        s0.estimated_tokens.den ≠ 0 ∧
        s0.estimated_tokens.toRat = (s0.files.map (fun fi => fi.estimated_tokens.toRat)).sum) →
      (t.estimated_tokens = t.files.foldl (fun acc fi => acc.add fi.estimated_tokens) ⟨0, 1⟩ ∧
        t.estimated_tokens.den ≠ 0 ∧
        t.estimated_tokens.toRat = (t.files.map (fun fi => fi.estimated_tokens.toRat)).sum) := by
    intro s0 f fi t hfi hagg hp
    obtain ⟨hfiles, hest, _, _, _, _, _⟩ := aggregate_file_ok s0 fi t hagg
    obtain ⟨_, hestf, _, _⟩ := analyze_file_ok_fields yamlLoad f.path f.relPathStr f.content fi hfi
    have hfden : fi.estimated_tokens.den = 10 := by
      rw [hestf]
      norm_num [PyFloat.mul, PyFloat.ofNat, pyOnePointThree]
    obtain ⟨hp1, hp2, hp3⟩ := hp
    refine ⟨?_, ?_, ?_⟩
    · rw [hest, hfiles, List.foldl_append, List.foldl_cons, List.foldl_nil, hp1]
    · rw [hest]
      simp only [PyFloat.add]
      intro hzero
      rcases Nat.mul_eq_zero.mp hzero with h0 | h0
      · exact hp2 h0
      · rw [hfden] at h0
        exact absurd h0 (by norm_num)
    · rw [hest, hfiles, PyFloat.toRat_add _ _ hp2 (by rw [hfden]; norm_num), hp3,
        List.map_append, List.sum_append]
      simp
  have hinit : (initAnalysis root files.length).estimated_tokens =
        ((initAnalysis root files.length).files.foldl
          (fun acc fi => acc.add fi.estimated_tokens) ⟨0, 1⟩) ∧
      (initAnalysis root files.length).estimated_tokens.den ≠ 0 ∧
      (initAnalysis root files.length).estimated_tokens.toRat =
        (((initAnalysis root files.length).files.map (fun fi => fi.estimated_tokens.toRat)).sum) := by
    refine ⟨rfl, by norm_num [initAnalysis], ?_⟩
    show (⟨0, 1⟩ : PyFloat).toRat = _
    rw [PyFloat.toRat]
    norm_num [initAnalysis]
  have hfin := process_files_rec yamlLoad _ hstep files _ s hs hinit
  refine ⟨?_, ?_, ?_⟩
  · rw [ha]
    exact hfin.1
  · rw [ha]
    exact hfin.2.2
  · intro p rp c fi hfi
    obtain ⟨_, hestf, _, _⟩ := analyze_file_ok_fields yamlLoad p rp c fi hfi
    rw [hestf, est_toRat]

/-- A two-file demo corpus with wikilinks, used as a concrete input for
the corpus-level theorems. -/
def demoMd1 : MdFile :=
  { path := "/repo/a.md", rel_parts := ["a.md"], content := "alpha [[T]] beta [[T]]" }

/-- Second file of the demo corpus, in a subdirectory. -/
def demoMd2 : MdFile :=
  { path := "/repo/sub/b.md", rel_parts := ["sub", "b.md"], content := "see [[T]] and [[U]]" }

/-- The corpus analysis of the demo corpus, as computed by
analyze_repository. -/
def demoCorpusAnalysis : Analysis := {
  path := "/repo"
  files := [
    { path := "/repo/a.md", relative_path := "a.md", size := 22,
      estimated_tokens := ⟨52, 10⟩, frontmatter := .dict [], tags := [],
      wikilinks := ["T", "T"], headings := [], has_code_blocks := false },
    { path := "/repo/sub/b.md", relative_path := "sub/b.md", size := 19,
      estimated_tokens := ⟨52, 10⟩, frontmatter := .dict [], tags := [],
      wikilinks := ["T", "U"], headings := [], has_code_blocks := false }]
  total_files := 2
  total_size := 41
  frontmatter_fields := []
  tags := []
  wikilinks := ["T", "T", "T", "U"]
  backlinks := [("T", ["a.md", "a.md", "sub/b.md"]), ("U", ["sub/b.md"])]
  file_structure := [("root", 1), ("sub", 1)]
  topics := [.str "sub"]
  estimated_tokens := ⟨1040, 100⟩ }

/-- Evaluation of the analyzer on the demo corpus. -/
theorem demoCorpus_eval :
    analyze_repository yamlLoadModel "/repo" [demoMd1, demoMd2] = .ok demoCorpusAnalysis := by
  rfl

/-- C4 witness: the token-sum facts instantiated on the demo corpus. -/
theorem estimated_tokens_exact_witness :
    demoCorpusAnalysis.estimated_tokens.toRat =
      (demoCorpusAnalysis.files.map (fun fi => fi.estimated_tokens.toRat)).sum ∧
    demoCorpusAnalysis.estimated_tokens =
      demoCorpusAnalysis.files.foldl (fun acc fi => acc.add fi.estimated_tokens) ⟨0, 1⟩ :=
  ⟨(estimated_tokens_exact yamlLoadModel "/repo" [demoMd1, demoMd2] demoCorpusAnalysis
      demoCorpus_eval).2.1,
   (estimated_tokens_exact yamlLoadModel "/repo" [demoMd1, demoMd2] demoCorpusAnalysis
      demoCorpus_eval).1⟩

/-- Lookup through one backlink entry. -/
theorem blLookup_cons (k : String) (v : List String) (bl : List (String × List String))
    (t : String) :
    blLookup ((k, v) :: bl) t = if k = t then v else blLookup bl t := by
  by_cases h : k = t <;> simp [blLookup, List.find?, h]

/-- One backlink append changes only the entry of its own target, adding
the referring path at the end of that entry. -/
theorem blAppend_lookup (bl : List (String × List String)) (l p t : String) :
    blLookup (blAppend bl l p) t = blLookup bl t ++ (if l = t then [p] else []) := by
  induction bl with
  | nil =>
    by_cases h : l = t
    · subst h
      simp [blAppend, blLookup_cons, blLookup]
    · simp [blAppend, blLookup_cons, blLookup, h]
  | cons e rest ih =>
    obtain ⟨k, v⟩ := e
    by_cases hk : k = l
    · subst hk
      rw [blAppend, if_pos rfl, blLookup_cons, blLookup_cons]
      by_cases ht : k = t
      · simp [ht]
      · simp [ht]
    · rw [blAppend, if_neg hk, blLookup_cons, blLookup_cons]
      by_cases ht : k = t
      · have hlt : ¬ l = t := fun hh => hk (ht.trans hh.symm)
        simp [ht, hlt]
      · simp [ht, ih]

/-- Folding the backlink appends of one file over its wikilinks extends
each target entry by one occurrence of the referring path per occurrence
of the target, in order. -/
theorem blLookup_foldl (links : List String) (bl : List (String × List String)) (p t : String) :
    blLookup (links.foldl (fun b l => blAppend b l p) bl) t =
      blLookup bl t ++ (links.filter (fun l => l == t)).map (fun _ => p) := by
  induction links generalizing bl with
  | nil => simp
  | cons l rest ih =>
    rw [List.foldl_cons, ih, blAppend_lookup, List.filter_cons]
    by_cases h : l = t
    · simp [h]
    · have h2 : (l == t) = false := by
        simp [h]
      simp [h, h2]

/-- Backlink appends keep every entry list non-empty. -/
theorem blAppend_entries_ne_nil (bl : List (String × List String)) (l p : String)
    (h : ∀ e ∈ bl, e.2 ≠ []) : ∀ e ∈ blAppend bl l p, e.2 ≠ [] := by
  induction bl with
  | nil =>
    intro e he
    simp only [blAppend, List.mem_singleton] at he
    subst he
    simp
  | cons e0 rest ih =>
    obtain ⟨k, v⟩ := e0
    intro e he
    by_cases hk : k = l
    · rw [blAppend, if_pos hk] at he
      rcases List.mem_cons.mp he with h1 | h1
      · subst h1
        simp
      · exact h e (List.mem_cons_of_mem _ h1)
    · rw [blAppend, if_neg hk] at he
      rcases List.mem_cons.mp he with h1 | h1
      · subst h1
        exact h (k, v) (List.mem_cons_self _ _)
      · exact ih (fun e2 he2 => h e2 (List.mem_cons_of_mem _ he2)) e h1

/-- The fold of backlink appends keeps every entry list non-empty. -/
theorem blFoldl_entries_ne_nil (links : List String) (bl : List (String × List String)) (p : String)
    (h : ∀ e ∈ bl, e.2 ≠ []) :
    ∀ e ∈ links.foldl (fun b l => blAppend b l p) bl, e.2 ≠ [] := by
  induction links generalizing bl with
  | nil => exact h
  | cons l rest ih =>
    rw [List.foldl_cons]
    exact ih _ (blAppend_entries_ne_nil bl l p h)

/-- When every entry list is non-empty, a key is present exactly when its
lookup is non-empty. -/
theorem blHasKey_iff (bl : List (String × List String)) (t : String)
    (h : ∀ e ∈ bl, e.2 ≠ []) : blHasKey bl t = true ↔ blLookup bl t ≠ [] := by
  induction bl with
  | nil => simp [blHasKey, blLookup]
  | cons e rest ih =>
    obtain ⟨k, v⟩ := e
    by_cases hk : k = t
    · subst hk
      have hv : v ≠ [] := h (k, v) (List.mem_cons_self _ _)
      simp [blHasKey, blLookup, hv]
    · have hrest := ih (fun e2 he2 => h e2 (List.mem_cons_of_mem _ he2))
      simp only [blHasKey, blLookup, List.any_cons, List.find?] at hrest ⊢
      have hk2 : (k = t) = False := by simp [hk]
      simp [hk, hrest, blLookup]

/-- C3: after aggregation, the backlink entry of every target is exactly
the concatenation, in file order, of one copy of the referring relative
path per occurrence of the target among that file wikilinks; every
recorded wikilink has a backlink key equal to its exact text, and the
referring file appears in that entry. -/
theorem backlinks_per_occurrence (yamlLoad : List Char → Except PyErr Yaml)
    (root : String) (files : List MdFile) (a : Analysis)
    (h : analyze_repository yamlLoad root files = .ok a) :
    (∀ t, blLookup a.backlinks t =
      a.files.flatMap (fun fi =>
        (fi.wikilinks.filter (fun l => l == t)).map (fun _ => fi.relative_path))) ∧
    (∀ l ∈ a.wikilinks, blHasKey a.backlinks l = true) ∧
    (∀ fi ∈ a.files, ∀ l ∈ fi.wikilinks, fi.relative_path ∈ blLookup a.backlinks l) := by
  obtain ⟨s, hs, ha⟩ := analyze_repository_ok yamlLoad root files a h
  have hstep : ∀ (s0 : Analysis) (f : MdFile) (fi : FileAnalysis) (t : Analysis),
      analyze_file yamlLoad f.path f.relPathStr f.content = .ok fi →
      aggregate_file s0 fi = .ok t →
      ((∀ tt, blLookup s0.backlinks tt = s0.files.flatMap (fun fi =>
          (fi.wikilinks.filter (fun l => l == tt)).map (fun _ => fi.relative_path))) ∧
        (∀ e ∈ s0.backlinks, e.2 ≠ []) ∧
        s0.wikilinks = s0.files.flatMap (fun fi => fi.wikilinks)) →
      ((∀ tt, blLookup t.backlinks tt = t.files.flatMap (fun fi =>
          (fi.wikilinks.filter (fun l => l == tt)).map (fun _ => fi.relative_path))) ∧
        (∀ e ∈ t.backlinks, e.2 ≠ []) ∧
        t.wikilinks = t.files.flatMap (fun fi => fi.wikilinks)) := by
    intro s0 f fi t hfi hagg hp
    obtain ⟨hfiles, _, hwl, hbl, _, _, _⟩ := aggregate_file_ok s0 fi t hagg
    obtain ⟨hp1, hp2, hp3⟩ := hp
    refine ⟨?_, ?_, ?_⟩
    · intro tt
      rw [hbl, blLookup_foldl, hp1, hfiles, List.flatMap_append]
      simp
    · rw [hbl]
      exact blFoldl_entries_ne_nil _ _ _ hp2
    · rw [hwl, hfiles, hp3, List.flatMap_append]
      simp
  have hinit : (∀ tt, blLookup (initAnalysis root files.length).backlinks tt =
        (initAnalysis root files.length).files.flatMap (fun fi =>
          (fi.wikilinks.filter (fun l => l == tt)).map (fun _ => fi.relative_path))) ∧
      (∀ e ∈ (initAnalysis root files.length).backlinks, e.2 ≠ []) ∧
      (initAnalysis root files.length).wikilinks =
        (initAnalysis root files.length).files.flatMap (fun fi => fi.wikilinks) := by
    refine ⟨fun tt => ?_, ?_, rfl⟩
    · simp [initAnalysis, blLookup]
    · simp [initAnalysis]
  have hfin := process_files_rec yamlLoad _ hstep files _ s hs hinit
  have hback : a.backlinks = s.backlinks := by rw [ha]
  have hfilesa : a.files = s.files := by rw [ha]
  have hwla : a.wikilinks = s.wikilinks := by rw [ha]
  refine ⟨?_, ?_, ?_⟩
  · intro t
    rw [hback, hfilesa]
    exact hfin.1 t
  · intro l hl
    rw [hback]
    rw [hwla, hfin.2.2] at hl
    obtain ⟨fi, hfi, hlw⟩ := List.mem_flatMap.mp hl
    rw [blHasKey_iff _ _ hfin.2.1, hfin.1 l]
    intro hempty
    have hmem : fi.relative_path ∈ s.files.flatMap (fun fi =>
        (fi.wikilinks.filter (fun l2 => l2 == l)).map (fun _ => fi.relative_path)) := by
      refine List.mem_flatMap.mpr ⟨fi, hfi, ?_⟩
      refine List.mem_map.mpr ⟨l, ?_, rfl⟩
      refine List.mem_filter.mpr ⟨hlw, ?_⟩
      simp
    rw [hempty] at hmem
    exact List.not_mem_nil _ hmem
  · intro fi hfi l hl
    rw [hback, hfin.1 l, hfilesa] at *
    refine List.mem_flatMap.mpr ⟨fi, ?_, ?_⟩
    · rw [hfilesa] at hfi
      exact hfi
    · refine List.mem_map.mpr ⟨l, ?_, rfl⟩
      refine List.mem_filter.mpr ⟨hl, ?_⟩
      simp

/-- C3 witness: the backlink facts instantiated on the demo corpus. -/
theorem backlinks_per_occurrence_witness :
    blLookup demoCorpusAnalysis.backlinks "T" =
      demoCorpusAnalysis.files.flatMap (fun fi =>
        (fi.wikilinks.filter (fun l => l == "T")).map (fun _ => fi.relative_path)) ∧
    blHasKey demoCorpusAnalysis.backlinks "U" = true :=
  ⟨(backlinks_per_occurrence yamlLoadModel "/repo" [demoMd1, demoMd2] demoCorpusAnalysis
      demoCorpus_eval).1 "T",
   (backlinks_per_occurrence yamlLoadModel "/repo" [demoMd1, demoMd2] demoCorpusAnalysis
      demoCorpus_eval).2.1 "U" (by decide)⟩

/-- A loop whose body always succeeds succeeds. -/
theorem optionMapM_isSome (f : α → Option β) (l : List α)
    (h : ∀ x ∈ l, (f x).isSome) : (optionMapM f l).isSome := by
  induction l with
  | nil => simp [optionMapM]
  | cons x xs ih =>
    obtain ⟨y, hy⟩ := Option.isSome_iff_exists.mp (h x (List.mem_cons_self _ _))
    obtain ⟨ys, hys⟩ := Option.isSome_iff_exists.mp
      (ih (fun z hz => h z (List.mem_cons_of_mem _ hz)))
    simp [optionMapM, hy, hys]

/-- The frontmatter-usage paragraph renders whenever the corpus is
non-empty. -/
theorem fm_usage_section_isSome (ff : List (Yaml × Nat)) (tf : Nat) (h : tf ≠ 0) :
    (fm_usage_section ff tf).isSome := by
  rw [fm_usage_section]
  by_cases hff : ff.isEmpty
  · simp [hff]
  · rcases hx : optionMapM (fm_field_line tf) (mostCommon ff 10) with _ | lines
    · exfalso
      have hmap := optionMapM_isSome (fm_field_line tf) (mostCommon ff 10)
        (fun x hx2 => by simp [fm_field_line, pyDivNat, h])
      rw [hx] at hmap
      simp at hmap
    · simp [hff, hx]

/-- The linking-patterns paragraph renders whenever the corpus is
non-empty. -/
theorem linking_section_isSome (wl : List String) (bl : List (String × List String))
    (tf : Nat) (h : tf ≠ 0) : (linking_section wl bl tf).isSome := by
  rw [linking_section]
  by_cases hwl : wl.length > 0
  · simp [hwl, pyDivNat, h]
  · simp [hwl]

/-- The token-budget rows render whenever the corpus is non-empty. -/
theorem budget_rows_isSome (est : PyFloat) (tf : Nat) (h : tf ≠ 0) :
    (budget_rows est tf).isSome := by
  simp [budget_rows, pyDivByCount, h]

/-- The token-budget rows raise a ZeroDivisionError on an empty corpus. -/
theorem budget_rows_zero (est : PyFloat) : budget_rows est 0 = none := by
  simp [budget_rows, pyDivByCount]

/-- The suggested-structure lines render whenever the leading topics are
strings. -/
theorem suggested_refs_section_isSome (topics : List Yaml)
    (h : ∀ t ∈ topics.take 3, ∃ s, t = Yaml.str s) :
    (suggested_refs_section topics).isSome := by
  rw [suggested_refs_section]
  rcases hx : optionMapM topic_ref_line (topics.take 3) with _ | lines
  · exfalso
    have hmap := optionMapM_isSome topic_ref_line (topics.take 3)
      (fun t ht => by
        obtain ⟨s, hs⟩ := h t ht
        subst hs
        simp [topic_ref_line])
    rw [hx] at hmap
    simp at hmap
  · simp [hx]

/-- C9: report generation divides by the total file count without a
guard: on a corpus with zero markdown files it fails with a
ZeroDivisionError instead of producing a report, and on a corpus with at
least one file every division is defined and a report is produced
(provided the up-to-three leading topics are strings, which the suggested
structure section lowercases). -/
theorem generate_report_division_guard (a : Analysis) (today : String) :
    (a.total_files = 0 → generate_report a today = none) ∧
    (a.total_files ≠ 0 → (∀ t ∈ a.topics.take 3, ∃ s, t = Yaml.str s) →
      (generate_report a today).isSome) := by
  constructor
  · intro h0
    rw [generate_report]
    cases hfm : fm_usage_section a.frontmatter_fields a.total_files with
    | none => simp [hfm]
    | some v1 =>
      cases hlink : linking_section a.wikilinks a.backlinks a.total_files with
      | none => simp [hfm, hlink]
      | some v2 =>
        have hbr : budget_rows a.estimated_tokens a.total_files = none := by
          rw [h0]
          exact budget_rows_zero a.estimated_tokens
        simp [hfm, hlink, hbr]
  · intro h0 htop
    rw [generate_report]
    obtain ⟨v1, h1⟩ := Option.isSome_iff_exists.mp
      (fm_usage_section_isSome a.frontmatter_fields a.total_files h0)
    obtain ⟨v2, h2⟩ := Option.isSome_iff_exists.mp
      (linking_section_isSome a.wikilinks a.backlinks a.total_files h0)
    obtain ⟨v3, h3⟩ := Option.isSome_iff_exists.mp
      (budget_rows_isSome a.estimated_tokens a.total_files h0)
    obtain ⟨v4, h4⟩ := Option.isSome_iff_exists.mp
      (suggested_refs_section_isSome a.topics htop)
    simp [h1, h2, h3, h4]

/-- C9 witness: the empty corpus analysis fails, the one-file analysis
produces a report. -/
theorem generate_report_division_guard_witness :
    generate_report demoEmptyAnalysis "2026-01-01" = none ∧
    (generate_report demoOneAnalysis "2026-01-01").isSome = true :=
  ⟨(generate_report_division_guard demoEmptyAnalysis "2026-01-01").1 rfl,
   (generate_report_division_guard demoOneAnalysis "2026-01-01").2 (by decide)
     (by intro t ht; simp [demoOneAnalysis] at ht)⟩

